import Mathlib

/-!
Shallow embedding of the data-mesh IAM provisioning code of this repository:
  src/src/data_mesh_util/lib/utils.py
  src/src/data_mesh_util/DataMeshConsumer.py
The remote IAM account is modelled as an explicit state (IAMState).  The
boto3 IAM client verbs used by the source are modelled with the AWS
semantics the source relies on: create verbs fail with
EntityAlreadyExists when the name is taken, get_role fails with
NoSuchEntity when the role is absent, and the server assigns ARNs
following the fixed template arn:aws:iam::ACCOUNT:TYPE PATH NAME
(without the blanks), which is the same template the source uses as its
fallback.  Python dictionaries are modelled as insertion-ordered
association lists, and Python exceptions as an error type threaded next
to the state, so that mutations performed before an exception persist.
-/

namespace DataMesh

/-- Error outcomes of the modelled boto3 calls and of the Python runtime:
EntityAlreadyExistsException, NoSuchEntityException, KeyError, and the
generic Exception class used by raise statements in the source. -/
inductive IAMErr
  | entityAlreadyExists
  | noSuchEntity
  | keyError (key : String)
  | exception (msg : String)
deriving Repr, DecidableEq

/-- Insertion-ordered association list standing for a Python dict whose
values are principal lists, as used for the Principal entry of a policy
statement. -/
abbrev PrincipalMap := List (String × List String)

/-- One statement of a policy document, with the fields the source ever
writes: Effect, Action, optional Principal and optional Resource. -/
structure Stmt where
  effect : String
  action : String
  principal : Option PrincipalMap
  resource : Option String
deriving Repr, DecidableEq

/-- A policy document: Version plus a list of statements. -/
structure PolicyDoc where
  version : String
  statement : List Stmt
deriving Repr, DecidableEq

/-- Lookup in an association list keyed by strings, standing for a Python
dict read. -/
def alookup {α : Type} (k : String) : List (String × α) → Option α
  | [] => none
  | (k2, v) :: rest => if k = k2 then some v else alookup k rest

/-- Write to an association list keyed by strings, with the Python dict
semantics: an existing key keeps its position, a new key is appended. -/
def aset {α : Type} (k : String) (v : α) : List (String × α) → List (String × α)
  | [] => [(k, v)]
  | (k2, v2) :: rest => if k2 = k then (k, v) :: rest else (k2, v2) :: aset k v rest

/-- Embeds the for loop of create_assume_role_doc (utils.py lines 64 to
66): each additional principal entry is written into the Principal dict
of the statement; when the statement has no Principal entry, the read
raises KeyError, exactly as the subscripted read in the source does. -/
def apply_additional : Option PrincipalMap → List (String × List String) →
    Except IAMErr (Option PrincipalMap)
  | p, [] => Except.ok p
  | none, _ :: _ => Except.error (IAMErr.keyError "Principal")
  | some d, (k, v) :: rest => apply_additional (some (aset k v d)) rest

/-- Embeds create_assume_role_doc (utils.py lines 48 to 71): a single
Allow statement for sts:AssumeRole; Principal.AWS is set when
aws_principals is given, additional principal entries are merged into
the Principal dict, and Resource is set when resource is given. -/
def create_assume_role_doc (aws_principals : Option (List String))
    (resource : Option String) (additional_principals : Option PrincipalMap) :
    Except IAMErr PolicyDoc :=
  let p0 : Option PrincipalMap :=
    match aws_principals with
    | some ps => some [("AWS", ps)]
    | none => none
  match (match additional_principals with
         | some m => apply_additional p0 m
         | none => Except.ok p0) with
  | Except.error e => Except.error e
  | Except.ok p1 =>
      Except.ok (PolicyDoc.mk "2012-10-17" [Stmt.mk "Allow" "sts:AssumeRole" p1 resource])

/-- Reads the Principal.AWS list of the first statement of a document,
returning none when any of the accesses the source performs would fail. -/
def docAwsList (d : PolicyDoc) : Option (List String) :=
  match d.statement with
  | [] => none
  | st :: _ =>
    match st.principal with
    | none => none
    | some pm => alookup "AWS" pm

/-- A policy object stored by the modelled IAM account: its ARN, its
description, and its document.  Template-rendered documents arrive as
opaque strings, documents built by create_assume_role_doc arrive
structured. -/
inductive PolicyBody
  | raw (s : String)
  | doc (d : PolicyDoc)
deriving Repr, DecidableEq

/-- A stored IAM policy. -/
structure IAMPolicy where
  arn : String
  description : String
  body : PolicyBody
deriving Repr, DecidableEq

/-- A stored IAM role: its ARN, its description and its trust policy
document. -/
structure IAMRole where
  arn : String
  description : String
  trustDoc : PolicyDoc
deriving Repr, DecidableEq

/-- The remote IAM account: the only mutable state the source touches.
Roles and policies are keyed by name; users and groups are name sets;
the three attachment relations mirror add_user_to_group,
attach_role_policy and attach_group_policy. -/
structure IAMState where
  roles : List (String × IAMRole)
  policies : List (String × IAMPolicy)
  users : List String
  groups : List String
  userGroups : List (String × String)
  rolePolicies : List (String × String)
  groupPolicies : List (String × String)
deriving Repr, DecidableEq

/-- The IAM account with nothing provisioned yet. -/
def emptyState : IAMState := IAMState.mk [] [] [] [] [] [] []

/-- The deterministic ARN template arn:aws:iam::ACCOUNT:TYPE PATH NAME
(without the blanks), used both by the AWS server for the ARNs it
assigns and by the source as its fallback (utils.py lines 91, 106, 117
and 184). -/
def arnFor (account ty path name : String) : String :=
  "arn:aws:iam::" ++ account ++ ":" ++ ty ++ path ++ name

/-- Modelled boto3 iam get_role: returns the stored role or raises
NoSuchEntityException. -/
def get_role (role_name : String) (s : IAMState) : Except IAMErr IAMRole :=
  match alookup role_name s.roles with
  | some r => Except.ok r
  | none => Except.error IAMErr.noSuchEntity

/-- Modelled boto3 iam create_policy: raises EntityAlreadyExistsException
when the name is taken, otherwise stores the policy under the ARN the
template yields and returns that ARN.  Path and Tags beyond their effect
on the ARN are not part of the observable state the claims mention. -/
def create_policy (account_id path policy_name policy_desc : String)
    (body : PolicyBody) (s : IAMState) : Except IAMErr (String × IAMState) :=
  match alookup policy_name s.policies with
  | some _ => Except.error IAMErr.entityAlreadyExists
  | none =>
    let arn := arnFor account_id "policy" path policy_name
    Except.ok (arn,
      { s with policies := (policy_name, IAMPolicy.mk arn policy_desc body) :: s.policies })

/-- Modelled boto3 iam create_user: raises EntityAlreadyExistsException
when the name is taken. -/
def create_user (user_name : String) (s : IAMState) : Except IAMErr IAMState :=
  if user_name ∈ s.users then Except.error IAMErr.entityAlreadyExists
  else Except.ok { s with users := user_name :: s.users }

/-- Modelled boto3 iam create_group: raises EntityAlreadyExistsException
when the name is taken. -/
def create_group (group_name : String) (s : IAMState) : Except IAMErr IAMState :=
  if group_name ∈ s.groups then Except.error IAMErr.entityAlreadyExists
  else Except.ok { s with groups := group_name :: s.groups }

/-- Modelled boto3 iam add_user_to_group, which is idempotent on the AWS
side; the try block around it in the source (utils.py lines 120 to 126)
never fires in this model. -/
def add_user_to_group (group_name user_name : String) (s : IAMState) : IAMState :=
  if (group_name, user_name) ∈ s.userGroups then s
  else { s with userGroups := (group_name, user_name) :: s.userGroups }

/-- Modelled boto3 iam attach_role_policy (idempotent on the AWS side). -/
def attach_role_policy (role_name policy_arn : String) (s : IAMState) : IAMState :=
  if (role_name, policy_arn) ∈ s.rolePolicies then s
  else { s with rolePolicies := (role_name, policy_arn) :: s.rolePolicies }

/-- Modelled boto3 iam attach_group_policy (idempotent on the AWS side). -/
def attach_group_policy (group_name policy_arn : String) (s : IAMState) : IAMState :=
  if (group_name, policy_arn) ∈ s.groupPolicies then s
  else { s with groupPolicies := (group_name, policy_arn) :: s.groupPolicies }

/-- Modelled boto3 iam create_role: raises EntityAlreadyExistsException
when the name is taken, otherwise stores the role under the ARN the
template yields and returns that ARN. -/
def create_role (account_id path role_name role_desc : String) (trust_doc : PolicyDoc)
    (s : IAMState) : Except IAMErr (String × IAMState) :=
  match alookup role_name s.roles with
  | some _ => Except.error IAMErr.entityAlreadyExists
  | none =>
    let arn := arnFor account_id "role" path role_name
    Except.ok (arn,
      { s with roles := (role_name, IAMRole.mk arn role_desc trust_doc) :: s.roles })

/-- Modelled boto3 iam update_assume_role_policy: replaces the trust
document of the named role. -/
def update_assume_role_policy (role_name : String) (doc : PolicyDoc) (s : IAMState) :
    Except IAMErr IAMState :=
  match alookup role_name s.roles with
  | none => Except.error IAMErr.noSuchEntity
  | some r =>
      Except.ok { s with roles := aset role_name (IAMRole.mk r.arn r.description doc) s.roles }

/-- Embeds validate_correct_account (utils.py lines 9 to 14): get_role in
a try block whose except clause catches NoSuchEntityException and
returns False. -/
def validate_correct_account (role_must_exist : String) (s : IAMState) :
    Except IAMErr Bool :=
  match get_role role_must_exist s with
  | Except.ok _ => Except.ok true
  | Except.error IAMErr.noSuchEntity => Except.ok false
  | Except.error e => Except.error e

/-- Reads the Principal.AWS list of the trust document of a role. -/
def trustAwsList (r : IAMRole) : Option (List String) :=
  docAwsList r.trustDoc

/-- Reads the Principal.AWS trust list of the named role in a state. -/
def roleAwsTrust (role_name : String) (s : IAMState) : Option (List String) :=
  match alookup role_name s.roles with
  | none => none
  | some r => trustAwsList r

/-- Embeds add_aws_trust_to_role (utils.py lines 26 to 45).  The result
of validate_correct_account is ignored, as in the source; the trust list
is read from Statement index 0, the account is appended only when
absent, and the document is written back unconditionally with
update_assume_role_policy.  The error branches stand for the IndexError,
AttributeError and TypeError the corresponding Python accesses raise. -/
def add_aws_trust_to_role (account_id role_name : String) (s : IAMState) :
    Except IAMErr Unit × IAMState :=
  match validate_correct_account role_name s with
  | Except.error e => (Except.error e, s)
  | Except.ok _ =>
    match get_role role_name s with
    | Except.error e => (Except.error e, s)
    | Except.ok role =>
      match role.trustDoc.statement with
      | [] => (Except.error (IAMErr.exception "IndexError"), s)
      | stmt0 :: rest =>
        match stmt0.principal with
        | none => (Except.error (IAMErr.exception "AttributeError"), s)
        | some pm =>
          match alookup "AWS" pm with
          | none => (Except.error (IAMErr.exception "TypeError"), s)
          | some trusted_entities =>
            let new_doc :=
              if account_id ∈ trusted_entities then role.trustDoc
              else PolicyDoc.mk role.trustDoc.version
                (Stmt.mk stmt0.effect stmt0.action
                  (some (aset "AWS" (trusted_entities ++ [account_id]) pm))
                  stmt0.resource :: rest)
            match update_assume_role_policy role_name new_doc s with
            | Except.ok s2 => (Except.ok (), s2)
            | Except.error e => (Except.error e, s)

/-- Embeds the first try block of configure_iam (utils.py lines 78 to
91): create_policy with the rendered template document, falling back to
the template ARN when EntityAlreadyExistsException is raised.  In this
model the create verbs raise nothing but EntityAlreadyExists, so the
catch-all error branch is exactly the except clause of the source. -/
def create_policy_idem (account_id path policy_name policy_desc : String)
    (body : PolicyBody) (s : IAMState) : String × IAMState :=
  match create_policy account_id path policy_name policy_desc body s with
  | Except.ok (arn, s2) => (arn, s2)
  | Except.error _ => (arnFor account_id "policy" path policy_name, s)

/-- Embeds the second try block of configure_iam (utils.py lines 94 to
104): create_user with the except EntityAlreadyExists pass.  The fixed
sleep after creation is timing behaviour with no effect on the state. -/
def create_user_idem (user_name : String) (s : IAMState) : IAMState :=
  match create_user user_name s with
  | Except.ok s2 => s2
  | Except.error _ => s

/-- Embeds the third try block of configure_iam (utils.py lines 109 to
115): create_group with the except EntityAlreadyExists pass. -/
def create_group_idem (group_name : String) (s : IAMState) : IAMState :=
  match create_group group_name s with
  | Except.ok s2 => s2
  | Except.error _ => s

/-- Embeds configure_iam up to line 126: policy creation (keeping the
policy ARN), user creation, group creation, and putting the user in the
group.  The user and group ARNs the source computes at lines 106 and 117
are the template ARNs; the group ARN is never used afterwards. -/
def configure_iam_pre (policy_name policy_desc rendered_policy role_name
    account_id path : String) (s0 : IAMState) : String × IAMState :=
  ((create_policy_idem account_id path policy_name policy_desc
      (PolicyBody.raw rendered_policy) s0).1,
   add_user_to_group (role_name ++ "Group") role_name
     (create_group_idem (role_name ++ "Group")
       (create_user_idem role_name
         (create_policy_idem account_id path policy_name policy_desc
           (PolicyBody.raw rendered_policy) s0).2)))

/-- Embeds create_assume_role_policy (utils.py lines 171 to 186): creates
a policy whose document scopes sts:AssumeRole to the single role ARN,
falling back to the template ARN when the name is taken. -/
def create_assume_role_policy (account_id path policy_name role_arn : String)
    (s : IAMState) : Except IAMErr String × IAMState :=
  match create_assume_role_doc none (some role_arn) none with
  | Except.error e => (Except.error e, s)
  | Except.ok d =>
    match create_policy account_id path policy_name
        ("Policy allowing the grantee the ability to assume Role " ++ role_arn)
        (PolicyBody.doc d) s with
    | Except.ok (arn, s2) => (Except.ok arn, s2)
    | Except.error _ => (Except.ok (arnFor account_id "policy" path policy_name), s)

/-- Embeds configure_iam lines 148 to 160: attach the first policy to the
role, create the companion Assume policy (whose returned ARN the source
discards at line 154), then attach the FIRST policy ARN to the group at
line 157 and return the role ARN. -/
def configure_iam_rest (policy_arn role_arn role_name account_id path : String)
    (s : IAMState) : Except IAMErr String × IAMState :=
  let ares := create_assume_role_policy account_id path ("Assume" ++ role_name) role_arn
    (attach_role_policy role_name policy_arn s)
  match ares.1 with
  | Except.error e => (Except.error e, ares.2)
  | Except.ok _ =>
      (Except.ok role_arn, attach_group_policy (role_name ++ "Group") policy_arn ares.2)

/-- Embeds configure_iam lines 128 to 160: build the trust document for
the companion user and the account root principal, create the role, and
on EntityAlreadyExistsException recover the ARN of the existing role
with a get_role round trip (lines 144 to 146); a KeyError from the
document construction is not caught and propagates. -/
def configure_iam_role_step (policy_arn role_name role_desc account_id path : String)
    (add : Option PrincipalMap) (s4 : IAMState) : Except IAMErr String × IAMState :=
  match create_assume_role_doc
      (some [arnFor account_id "user" path role_name,
        "arn:aws:iam::" ++ account_id ++ ":root"]) none add with
  | Except.error e => (Except.error e, s4)
  | Except.ok trust_doc =>
    match create_role account_id path role_name role_desc trust_doc s4 with
    | Except.ok (role_arn, s5) =>
        configure_iam_rest policy_arn role_arn role_name account_id path s5
    | Except.error _ =>
        match get_role role_name s4 with
        | Except.error e => (Except.error e, s4)
        | Except.ok r => configure_iam_rest policy_arn r.arn role_name account_id path s4

/-- Embeds configure_iam (utils.py lines 74 to 160) end to end.  The
rendered_policy argument stands for the generate_policy output (template
rendering is an external collaborator reading a file); path stands for
the fixed DATA_MESH_IAM_PATH constant, imported by the source from a
constants module that the repository keeps outside utils.py. -/
def configure_iam (policy_name policy_desc rendered_policy role_name role_desc
    account_id path : String) (additional_assuming_principals : Option PrincipalMap)
    (s0 : IAMState) : Except IAMErr String × IAMState :=
  configure_iam_role_step
    (configure_iam_pre policy_name policy_desc rendered_policy role_name account_id path s0).1
    role_name role_desc account_id path additional_assuming_principals
    (configure_iam_pre policy_name policy_desc rendered_policy role_name account_id path s0).2

/-- Modelled from the spec: the fixed IAM path prefix lives in a
constants module not present under src; section 6 of the spec fixes only
that a single fixed path prefix namespaces every IAM object. -/
def DATA_MESH_IAM_PATH : String := "/AwsDataMesh/"

/-- Modelled from the spec: constants module not present under src;
section 6 of the spec fixes the role name DataMeshAdminConsumer. -/
def DATA_MESH_ADMIN_CONSUMER_ROLENAME : String := "DataMeshAdminConsumer"

/-- Modelled from the spec: constants module not present under src;
section 6 of the spec fixes the role name DataMeshConsumer. -/
def DATA_MESH_CONSUMER_ROLENAME : String := "DataMeshConsumer"

/-- Modelled from the spec: get_datamesh_consumer_role_arn is called by
DataMeshConsumer line 45 but is absent from utils.py under src; per the
deterministic ARN template of spec section 6 it names the administrative
consumer role of the mesh account. -/
def get_datamesh_consumer_role_arn (account_id : String) : String :=
  arnFor account_id "role" DATA_MESH_IAM_PATH DATA_MESH_ADMIN_CONSUMER_ROLENAME

/-- The network interactions the DataMeshConsumer constructor performs,
in source order: sts get_caller_identity (line 41), sts assume_role
(line 46) and the SubscriberTracker construction (line 50), which opens
a tracker session against the given region. -/
inductive InitEvent
  | getCallerIdentity
  | assumeRole
  | trackerConstruction
deriving Repr, DecidableEq

/-- Embeds DataMeshConsumer init (DataMeshConsumer.py lines 33 to 58):
the region is read from the environment at line 36, the three network
interactions run at lines 41, 46 and 50, and only then, at line 54, is a
missing region turned into the fatal configuration exception.  The
returned list records the network interactions performed before the
check, in order. -/
def dataMeshConsumer_init (data_mesh_account_id : String)
    (aws_region : Option String) : List InitEvent × Except IAMErr String :=
  let current_region := aws_region
  let data_consumer_role_arn := get_datamesh_consumer_role_arn data_mesh_account_id
  let events := [InitEvent.getCallerIdentity, InitEvent.assumeRole,
    InitEvent.trackerConstruction]
  if current_region = none then
    (events, Except.error (IAMErr.exception
      "Cannot create a Data Mesh Consumer without AWS_REGION environment variable"))
  else
    (events, Except.ok data_consumer_role_arn)

/-- Embeds DataMeshConsumer check_acct (DataMeshConsumer.py lines 60 to
63): raise unless validate_correct_account finds the administrative
consumer role. -/
def check_acct (s : IAMState) : Except IAMErr Unit :=
  match validate_correct_account DATA_MESH_ADMIN_CONSUMER_ROLENAME s with
  | Except.error e => Except.error e
  | Except.ok b =>
    if b = false then
      Except.error (IAMErr.exception "Function should be run in the Data Consumer Account")
    else Except.ok ()

/-- Embeds initialize_consumer_account (DataMeshConsumer.py lines 66 to
101): the account check runs first; then configure_iam provisions the
DataMeshConsumer role set, the AssumeDataMeshAdminConsumer policy is
created against the cross account role ARN computed at construction
time, and that policy is attached to the consumer group.
consumer_policy_name stands for the CONSUMER_POLICY_NAME constant and
account_id for the get_caller_identity result, both external to the
modelled state. -/
def init_consumer_account (consumer_policy_name rendered_policy account_id path
    data_consumer_role_arn : String) (s : IAMState) : Except IAMErr String × IAMState :=
  match check_acct s with
  | Except.error e => (Except.error e, s)
  | Except.ok _ =>
    match configure_iam consumer_policy_name
        "IAM Policy enabling Accounts to Assume the DataMeshAdminConsumer Role"
        rendered_policy DATA_MESH_CONSUMER_ROLENAME
        "Role to be used to update S3 Bucket Policies for access by the Data Mesh Account"
        account_id path none s with
    | (Except.error e, s2) => (Except.error e, s2)
    | (Except.ok consumer_iam, s2) =>
      match create_assume_role_policy account_id path "AssumeDataMeshAdminConsumer"
          data_consumer_role_arn s2 with
      | (Except.error e, s3) => (Except.error e, s3)
      | (Except.ok policy_arn, s3) =>
        (Except.ok consumer_iam,
         attach_group_policy (DATA_MESH_CONSUMER_ROLENAME ++ "Group") policy_arn s3)

/-- A role named DataMeshConsumer that pre-exists under a different IAM
path, so its stored ARN differs from the ARN the data-mesh path template
yields. -/
def preexistingRole : IAMRole :=
  IAMRole.mk "arn:aws:iam::111111111111:role/Other/DataMeshConsumer" ""
    (PolicyDoc.mk "2012-10-17" [])

/-- An account state in which only that pre-existing role exists. -/
def preexistingState : IAMState :=
  IAMState.mk [("DataMeshConsumer", preexistingRole)] [] [] [] [] [] []

/-- A policy named P already provisioned in the account. -/
def wPolicy : IAMPolicy :=
  IAMPolicy.mk "arn:aws:iam::111111111111:policy/AwsDataMesh/P" "" (PolicyBody.raw "x")

/-- An account state in which both the policy and the role already exist,
so every create call of configure_iam conflicts. -/
def wState : IAMState :=
  IAMState.mk [("DataMeshConsumer", preexistingRole)] [("P", wPolicy)] [] [] [] [] []

/-- A trust statement with a single trusted account. -/
def wTrustStmt : Stmt :=
  Stmt.mk "Allow" "sts:AssumeRole" (some [("AWS", ["111111111111"])]) none

/-- A role carrying that trust statement. -/
def wTrustRole : IAMRole :=
  IAMRole.mk "arn:aws:iam::111111111111:role/AwsDataMesh/DataMeshManager" ""
    (PolicyDoc.mk "2012-10-17" [wTrustStmt])

/-- An account state holding that role. -/
def wTrustState : IAMState :=
  IAMState.mk [("DataMeshManager", wTrustRole)] [] [] [] [] [] []

/-- Writing a key and reading it back yields the written value. -/
theorem alookup_aset_self {α : Type} (k : String) (v : α) (l : List (String × α)) :
    alookup k (aset k v l) = some v := by
  induction l with
  | nil => simp [aset, alookup]
  | cons hd tl ih =>
    obtain ⟨k2, v2⟩ := hd
    by_cases h : k2 = k
    · subst h
      simp [aset, alookup]
    · simp [aset, alookup, h, ih]
      intro he
      exact absurd he.symm h

/-- Writing one key leaves the value read at a different key unchanged. -/
theorem alookup_aset_ne {α : Type} (k k2 : String) (v : α) (l : List (String × α))
    (h : k ≠ k2) : alookup k (aset k2 v l) = alookup k l := by
  induction l with
  | nil => simp [aset, alookup, h]
  | cons hd tl ih =>
    obtain ⟨k3, v3⟩ := hd
    by_cases h3 : k3 = k2
    · subst h3
      simp [aset, alookup, h]
    · simp [aset, alookup, h3, ih]

/-- With a Principal dict present, the additional-principal loop always
succeeds and keeps the dict present. -/
theorem apply_additional_some (m : PrincipalMap) :
    ∀ d : PrincipalMap, ∃ d2, apply_additional (some d) m = Except.ok (some d2) := by
  induction m with
  | nil => exact fun d => ⟨d, rfl⟩
  | cons kv tl ih =>
    obtain ⟨k, v⟩ := kv
    intro d
    simpa [apply_additional] using ih (aset k v d)

/-- With a Principal dict present and no AWS key among the additional
principals, the loop succeeds and leaves the AWS entry unchanged. -/
theorem apply_additional_no_aws (m : PrincipalMap) :
    alookup "AWS" m = none →
    ∀ d : PrincipalMap, ∃ d2, apply_additional (some d) m = Except.ok (some d2) ∧
      alookup "AWS" d2 = alookup "AWS" d := by
  induction m with
  | nil => exact fun _ d => ⟨d, rfl, rfl⟩
  | cons kv tl ih =>
    obtain ⟨k, v⟩ := kv
    intro hm d
    by_cases hk : "AWS" = k
    · subst hk
      simp [alookup] at hm
    · simp only [alookup, if_neg hk] at hm
      obtain ⟨d2, h1, h2⟩ := ih hm (aset k v d)
      exact ⟨d2, by simpa [apply_additional] using h1,
        by rw [h2, alookup_aset_ne _ _ _ _ hk]⟩

/-- With AWS principals supplied, create_assume_role_doc never fails. -/
theorem create_assume_role_doc_aws_ok (l : List String) (res : Option String)
    (add : Option PrincipalMap) :
    ∃ d, create_assume_role_doc (some l) res add = Except.ok d := by
  cases add with
  | none => exact ⟨_, rfl⟩
  | some m =>
    obtain ⟨d2, h⟩ := apply_additional_some m [("AWS", l)]
    exact ⟨PolicyDoc.mk "2012-10-17" [Stmt.mk "Allow" "sts:AssumeRole" (some d2) res],
      by simp [create_assume_role_doc, h]⟩

/-- With AWS principals supplied and no AWS key among the additional
principals, the document carries exactly the supplied AWS list. -/
theorem create_assume_role_doc_no_aws (l : List String) (add : Option PrincipalMap)
    (h : add = none ∨ ∃ m, add = some m ∧ alookup "AWS" m = none) :
    ∃ d, create_assume_role_doc (some l) none add = Except.ok d ∧
      docAwsList d = some l := by
  rcases h with h | ⟨m, hm, hnone⟩
  · subst h
    exact ⟨_, rfl, by simp [docAwsList, alookup]⟩
  · subst hm
    obtain ⟨d2, h1, h2⟩ := apply_additional_no_aws m hnone [("AWS", l)]
    refine ⟨PolicyDoc.mk "2012-10-17" [Stmt.mk "Allow" "sts:AssumeRole" (some d2) none],
      by simp [create_assume_role_doc, h1], ?_⟩
    simpa [docAwsList, alookup] using h2

/-- The policy ARN kept by the first configure_iam step is the template
ARN whether the create succeeded or conflicted. -/
theorem create_policy_idem_fst (account_id path pn pd : String) (b : PolicyBody)
    (s : IAMState) :
    (create_policy_idem account_id path pn pd b s).1 = arnFor account_id "policy" path pn := by
  simp only [create_policy_idem, create_policy]
  cases h : alookup pn s.policies <;> simp [h]

/-- The first configure_iam step never touches the stored roles. -/
theorem create_policy_idem_roles (account_id path pn pd : String) (b : PolicyBody)
    (s : IAMState) :
    (create_policy_idem account_id path pn pd b s).2.roles = s.roles := by
  simp only [create_policy_idem, create_policy]
  cases h : alookup pn s.policies <;> simp [h]

/-- User creation never touches the stored roles. -/
theorem create_user_idem_roles (un : String) (s : IAMState) :
    (create_user_idem un s).roles = s.roles := by
  simp only [create_user_idem, create_user]
  by_cases h : un ∈ s.users <;> simp [h]

/-- Group creation never touches the stored roles. -/
theorem create_group_idem_roles (gn : String) (s : IAMState) :
    (create_group_idem gn s).roles = s.roles := by
  simp only [create_group_idem, create_group]
  by_cases h : gn ∈ s.groups <;> simp [h]

/-- Group membership updates never touch the stored roles. -/
theorem add_user_to_group_roles (gn un : String) (s : IAMState) :
    (add_user_to_group gn un s).roles = s.roles := by
  unfold add_user_to_group
  split <;> rfl

/-- The policy ARN configure_iam keeps for the attachments is always the
template ARN of the first policy. -/
theorem configure_iam_pre_fst (pn pd rp rn account_id path : String) (s : IAMState) :
    (configure_iam_pre pn pd rp rn account_id path s).1 =
      arnFor account_id "policy" path pn := by
  unfold configure_iam_pre
  exact create_policy_idem_fst account_id path pn pd (PolicyBody.raw rp) s

/-- The pre-role steps of configure_iam never touch the stored roles. -/
theorem configure_iam_pre_roles (pn pd rp rn account_id path : String) (s : IAMState) :
    (configure_iam_pre pn pd rp rn account_id path s).2.roles = s.roles := by
  unfold configure_iam_pre
  rw [add_user_to_group_roles, create_group_idem_roles, create_user_idem_roles,
    create_policy_idem_roles]

/-- create_assume_role_policy always answers with the template ARN of
the assume policy. -/
theorem create_assume_role_policy_fst (account_id path pn ra : String) (s : IAMState) :
    (create_assume_role_policy account_id path pn ra s).1 =
      Except.ok (arnFor account_id "policy" path pn) := by
  simp only [create_assume_role_policy, create_assume_role_doc, apply_additional,
    create_policy]
  cases h : alookup pn s.policies <;> simp [h]

/-- create_assume_role_policy never touches the stored roles. -/
theorem create_assume_role_policy_roles (account_id path pn ra : String) (s : IAMState) :
    (create_assume_role_policy account_id path pn ra s).2.roles = s.roles := by
  simp only [create_assume_role_policy, create_assume_role_doc, apply_additional,
    create_policy]
  cases h : alookup pn s.policies <;> simp [h]

/-- create_assume_role_policy never touches the role attachments. -/
theorem create_assume_role_policy_rolePolicies (account_id path pn ra : String)
    (s : IAMState) :
    (create_assume_role_policy account_id path pn ra s).2.rolePolicies = s.rolePolicies := by
  simp only [create_assume_role_policy, create_assume_role_doc, apply_additional,
    create_policy]
  cases h : alookup pn s.policies <;> simp [h]

/-- attach_role_policy never touches the stored roles. -/
theorem attach_role_policy_roles (rn pa : String) (s : IAMState) :
    (attach_role_policy rn pa s).roles = s.roles := by
  unfold attach_role_policy
  split <;> rfl

/-- attach_role_policy records the attachment. -/
theorem attach_role_policy_mem (rn pa : String) (s : IAMState) :
    (rn, pa) ∈ (attach_role_policy rn pa s).rolePolicies := by
  unfold attach_role_policy
  split
  · assumption
  · exact List.mem_cons_self _ _

/-- attach_group_policy never touches the stored roles. -/
theorem attach_group_policy_roles (gn pa : String) (s : IAMState) :
    (attach_group_policy gn pa s).roles = s.roles := by
  unfold attach_group_policy
  split <;> rfl

/-- attach_group_policy never touches the role attachments. -/
theorem attach_group_policy_rolePolicies (gn pa : String) (s : IAMState) :
    (attach_group_policy gn pa s).rolePolicies = s.rolePolicies := by
  unfold attach_group_policy
  split <;> rfl

/-- The configure_iam tail always returns the role ARN it is given. -/
theorem configure_iam_rest_fst (pa ra rn account_id path : String) (s : IAMState) :
    (configure_iam_rest pa ra rn account_id path s).1 = Except.ok ra := by
  simp only [configure_iam_rest, create_assume_role_policy_fst]

/-- The configure_iam tail never touches the stored roles. -/
theorem configure_iam_rest_roles (pa ra rn account_id path : String) (s : IAMState) :
    (configure_iam_rest pa ra rn account_id path s).2.roles = s.roles := by
  simp only [configure_iam_rest, create_assume_role_policy_fst]
  rw [attach_group_policy_roles, create_assume_role_policy_roles, attach_role_policy_roles]

/-- The configure_iam tail records the attachment of the first policy to
the role. -/
theorem configure_iam_rest_mem (pa ra rn account_id path : String) (s : IAMState) :
    (rn, pa) ∈ (configure_iam_rest pa ra rn account_id path s).2.rolePolicies := by
  simp only [configure_iam_rest, create_assume_role_policy_fst]
  rw [attach_group_policy_rolePolicies, create_assume_role_policy_rolePolicies]
  exact attach_role_policy_mem rn pa _

/-- When the trust document construction fails, the role step propagates
the failure unchanged. -/
theorem configure_iam_role_step_err (pa rn rd account_id path : String)
    (add : Option PrincipalMap) (e : IAMErr) (s : IAMState)
    (hdoc : create_assume_role_doc
      (some [arnFor account_id "user" path rn, "arn:aws:iam::" ++ account_id ++ ":root"])
      none add = Except.error e) :
    (configure_iam_role_step pa rn rd account_id path add s).1 = Except.error e := by
  simp only [configure_iam_role_step, hdoc]

/-- Characterises the role step of configure_iam once the trust document
is built: the returned ARN is the stored ARN of a pre-existing role and
the template ARN otherwise, the resulting state stores the role
accordingly, and the first policy is attached to the role. -/
theorem configure_iam_role_step_spec (pa rn rd account_id path : String)
    (add : Option PrincipalMap) (d : PolicyDoc)
    (hdoc : create_assume_role_doc
      (some [arnFor account_id "user" path rn, "arn:aws:iam::" ++ account_id ++ ":root"])
      none add = Except.ok d) (s : IAMState) :
    (configure_iam_role_step pa rn rd account_id path add s).1 =
      Except.ok (match alookup rn s.roles with
        | some r => r.arn
        | none => arnFor account_id "role" path rn) ∧
    alookup rn (configure_iam_role_step pa rn rd account_id path add s).2.roles =
      some (match alookup rn s.roles with
        | some r => r
        | none => IAMRole.mk (arnFor account_id "role" path rn) rd d) ∧
    (rn, pa) ∈ (configure_iam_role_step pa rn rd account_id path add s).2.rolePolicies := by
  simp only [configure_iam_role_step, hdoc]
  cases hr : alookup rn s.roles with
  | some r =>
    simp only [create_role, hr, get_role]
    refine ⟨configure_iam_rest_fst pa r.arn rn account_id path s, ?_,
      configure_iam_rest_mem pa r.arn rn account_id path s⟩
    rw [configure_iam_rest_roles, hr]
  | none =>
    simp only [create_role, hr]
    refine ⟨configure_iam_rest_fst pa _ rn account_id path _, ?_,
      configure_iam_rest_mem pa _ rn account_id path _⟩
    rw [configure_iam_rest_roles]
    simp [alookup]

/-- Characterises configure_iam once the trust document is built: the
answer is the stored ARN of a pre-existing role, the template ARN
otherwise, and the output state stores the role accordingly. -/
theorem configure_iam_fst_char (pn pd rp rn rd account_id path : String)
    (add : Option PrincipalMap) (d : PolicyDoc)
    (hdoc : create_assume_role_doc
      (some [arnFor account_id "user" path rn, "arn:aws:iam::" ++ account_id ++ ":root"])
      none add = Except.ok d) (s : IAMState) :
    (configure_iam pn pd rp rn rd account_id path add s).1 =
      Except.ok (match alookup rn s.roles with
        | some r => r.arn
        | none => arnFor account_id "role" path rn) ∧
    alookup rn (configure_iam pn pd rp rn rd account_id path add s).2.roles =
      some (match alookup rn s.roles with
        | some r => r
        | none => IAMRole.mk (arnFor account_id "role" path rn) rd d) := by
  unfold configure_iam
  obtain ⟨f, r, _⟩ := configure_iam_role_step_spec
    (configure_iam_pre pn pd rp rn account_id path s).1 rn rd account_id path add d hdoc
    (configure_iam_pre pn pd rp rn account_id path s).2
  rw [configure_iam_pre_roles] at f r
  exact ⟨f, r⟩

/-- Claim C1: the source does fail with the configuration error when no
region is available, but only at DataMeshConsumer.py line 54, after
get_caller_identity, assume_role and the tracker construction have all
run; the recorded network trace before the error is therefore the full
three-call sequence, not empty. -/
theorem region_error_raised_after_network_calls :
    (dataMeshConsumer_init "111111111111" none).2 =
      Except.error (IAMErr.exception
        "Cannot create a Data Mesh Consumer without AWS_REGION environment variable") ∧
    (dataMeshConsumer_init "111111111111" none).1 =
      [InitEvent.getCallerIdentity, InitEvent.assumeRole, InitEvent.trackerConstruction] :=
  ⟨rfl, rfl⟩

/-- Claim C2: on a first-time run for account 111111111111 with role name
DataMeshConsumer, the AssumeDataMeshConsumer policy is created with its
single statement scoped to Resource = the new role ARN, but the policy
attached to group DataMeshConsumerGroup is the first (template) policy,
because configure_iam line 154 discards the ARN create_assume_role_policy
returns and line 157 attaches policy_arn instead; the
AssumeDataMeshConsumer ARN is attached to no group. -/
theorem assume_policy_scoped_but_not_attached_to_group :
    (configure_iam "DataMeshConsumerPolicy" "" "tpl" "DataMeshConsumer" "" "111111111111"
        "/AwsDataMesh/" none emptyState).1 =
      Except.ok "arn:aws:iam::111111111111:role/AwsDataMesh/DataMeshConsumer" ∧
    alookup "AssumeDataMeshConsumer"
        (configure_iam "DataMeshConsumerPolicy" "" "tpl" "DataMeshConsumer" "" "111111111111"
          "/AwsDataMesh/" none emptyState).2.policies =
      some (IAMPolicy.mk "arn:aws:iam::111111111111:policy/AwsDataMesh/AssumeDataMeshConsumer"
        "Policy allowing the grantee the ability to assume Role arn:aws:iam::111111111111:role/AwsDataMesh/DataMeshConsumer"
        (PolicyBody.doc (PolicyDoc.mk "2012-10-17"
          [Stmt.mk "Allow" "sts:AssumeRole" none
            (some "arn:aws:iam::111111111111:role/AwsDataMesh/DataMeshConsumer")]))) ∧
    (configure_iam "DataMeshConsumerPolicy" "" "tpl" "DataMeshConsumer" "" "111111111111"
        "/AwsDataMesh/" none emptyState).2.groupPolicies =
      [("DataMeshConsumerGroup",
        "arn:aws:iam::111111111111:policy/AwsDataMesh/DataMeshConsumerPolicy")] ∧
    ("DataMeshConsumerGroup",
        "arn:aws:iam::111111111111:policy/AwsDataMesh/AssumeDataMeshConsumer") ∉
      (configure_iam "DataMeshConsumerPolicy" "" "tpl" "DataMeshConsumer" "" "111111111111"
        "/AwsDataMesh/" none emptyState).2.groupPolicies :=
  ⟨rfl, rfl, rfl, by decide⟩

/-- Claim C3, counterexample: when the role create conflicts with a role
provisioned under a different path, configure_iam answers the stored ARN
obtained by the get_role round trip, not the ARN reconstructed from the
template, so the recovery is not template reconstruction. -/
theorem role_conflict_template_arn_cex :
    (configure_iam "DataMeshConsumerPolicy" "" "tpl" "DataMeshConsumer" "" "111111111111"
        "/AwsDataMesh/" none preexistingState).1 =
      Except.ok "arn:aws:iam::111111111111:role/Other/DataMeshConsumer" ∧
    "arn:aws:iam::111111111111:role/Other/DataMeshConsumer" ≠
      arnFor "111111111111" "role" "/AwsDataMesh/" "DataMeshConsumer" :=
  ⟨rfl, by decide⟩

/-- Claim C3, amended: on already-exists conflicts the policy, user and
group paths recover with the template-reconstructed ARN (visible in the
attachment of the template policy ARN to the role), but the role path
recovers with a get_role round-trip lookup, answering the stored ARN of
the existing role. -/
theorem conflict_recovery_role_arn_by_lookup (pn pd rp rn rd account_id path : String)
    (add : Option PrincipalMap) (s : IAMState) (P : IAMPolicy) (r : IAMRole)
    (hp : alookup pn s.policies = some P)
    (hr : alookup rn s.roles = some r) :
    (configure_iam pn pd rp rn rd account_id path add s).1 = Except.ok r.arn ∧
    (rn, arnFor account_id "policy" path pn) ∈
      (configure_iam pn pd rp rn rd account_id path add s).2.rolePolicies := by
  obtain ⟨d, hdoc⟩ := create_assume_role_doc_aws_ok
    [arnFor account_id "user" path rn, "arn:aws:iam::" ++ account_id ++ ":root"] none add
  unfold configure_iam
  obtain ⟨f1, _, m1⟩ := configure_iam_role_step_spec
    (configure_iam_pre pn pd rp rn account_id path s).1 rn rd account_id path add d hdoc
    (configure_iam_pre pn pd rp rn account_id path s).2
  constructor
  · rw [f1, configure_iam_pre_roles, hr]
  · rw [configure_iam_pre_fst] at m1 ⊢
    exact m1

/-- Claim C3, witness: with both the policy and the role already
provisioned, both hypotheses of the amended theorem hold and the
conclusion evaluates on the concrete state. -/
theorem conflict_recovery_role_arn_by_lookup_witness :
    (configure_iam "P" "" "tpl" "DataMeshConsumer" "" "111111111111" "/AwsDataMesh/" none
        wState).1 = Except.ok preexistingRole.arn ∧
    ("DataMeshConsumer", arnFor "111111111111" "policy" "/AwsDataMesh/" "P") ∈
      (configure_iam "P" "" "tpl" "DataMeshConsumer" "" "111111111111" "/AwsDataMesh/" none
        wState).2.rolePolicies :=
  conflict_recovery_role_arn_by_lookup "P" "" "tpl" "DataMeshConsumer" "" "111111111111"
    "/AwsDataMesh/" none wState wPolicy preexistingRole rfl rfl

/-- Claim C4: with the account already in the trust list the role is
written back unchanged; with a new account the list is extended by
appending at the end, keeping every existing entry in place, and the
updated document is stored on the role. -/
theorem add_aws_trust_to_role_spec (account_id rn : String) (s : IAMState) (r : IAMRole)
    (stmt0 : Stmt) (rest : List Stmt) (pm : PrincipalMap) (ts : List String)
    (hr : alookup rn s.roles = some r)
    (hst : r.trustDoc.statement = stmt0 :: rest)
    (hpr : stmt0.principal = some pm)
    (hts : alookup "AWS" pm = some ts) :
    (add_aws_trust_to_role account_id rn s).1 = Except.ok () ∧
    alookup rn (add_aws_trust_to_role account_id rn s).2.roles =
      some (IAMRole.mk r.arn r.description
        (if account_id ∈ ts then r.trustDoc
         else PolicyDoc.mk r.trustDoc.version
           (Stmt.mk stmt0.effect stmt0.action
             (some (aset "AWS" (ts ++ [account_id]) pm)) stmt0.resource :: rest))) := by
  have hv : validate_correct_account rn s = Except.ok true := by
    simp [validate_correct_account, get_role, hr]
  have hg : get_role rn s = Except.ok r := by simp [get_role, hr]
  simp only [add_aws_trust_to_role, hv, hg, hst, hpr, hts, update_assume_role_policy, hr]
  exact ⟨trivial, alookup_aset_self rn _ s.roles⟩

/-- Claim C4, witness: adding account 222222222222 to a trust list that
holds only 111111111111 appends it at the end and stores the updated
document. -/
theorem add_aws_trust_to_role_spec_witness :
    (add_aws_trust_to_role "222222222222" "DataMeshManager" wTrustState).1 = Except.ok () ∧
    alookup "DataMeshManager"
        (add_aws_trust_to_role "222222222222" "DataMeshManager" wTrustState).2.roles =
      some (IAMRole.mk wTrustRole.arn wTrustRole.description
        (if "222222222222" ∈ ["111111111111"] then wTrustRole.trustDoc
         else PolicyDoc.mk wTrustRole.trustDoc.version
           (Stmt.mk wTrustStmt.effect wTrustStmt.action
             (some (aset "AWS" (["111111111111"] ++ ["222222222222"])
               [("AWS", ["111111111111"])])) wTrustStmt.resource :: []))) :=
  add_aws_trust_to_role_spec "222222222222" "DataMeshManager" wTrustState wTrustRole
    wTrustStmt [] [("AWS", ["111111111111"])] ["111111111111"] rfl rfl rfl rfl

/-- Claim C5: whenever a configure_iam run answers a role ARN, running
configure_iam again with the same arguments on the resulting account
state answers the same role ARN. -/
theorem configure_iam_role_arn_idem (pn pd rp rn rd account_id path : String)
    (add : Option PrincipalMap) (s : IAMState) (a1 : String)
    (h : (configure_iam pn pd rp rn rd account_id path add s).1 = Except.ok a1) :
    (configure_iam pn pd rp rn rd account_id path add
        ((configure_iam pn pd rp rn rd account_id path add s).2)).1 = Except.ok a1 := by
  cases hdoc : create_assume_role_doc
      (some [arnFor account_id "user" path rn, "arn:aws:iam::" ++ account_id ++ ":root"])
      none add with
  | error e =>
    rw [show (configure_iam pn pd rp rn rd account_id path add s).1 = Except.error e from by
      unfold configure_iam
      exact configure_iam_role_step_err _ rn rd account_id path add e _ hdoc] at h
    exact absurd h (by simp)
  | ok d =>
    obtain ⟨f1, r1⟩ := configure_iam_fst_char pn pd rp rn rd account_id path add d hdoc s
    obtain ⟨f2, _⟩ := configure_iam_fst_char pn pd rp rn rd account_id path add d hdoc
      ((configure_iam pn pd rp rn rd account_id path add s).2)
    rw [f1] at h
    rw [f2, r1]
    cases hr : alookup rn s.roles with
    | some r =>
      rw [hr] at h
      exact h
    | none =>
      rw [hr] at h
      exact h

/-- Claim C5, witness: provisioning the DataMeshConsumer role set twice
from the empty account yields the template role ARN both times. -/
theorem configure_iam_role_arn_idem_witness :
    (configure_iam "P" "" "tpl" "DataMeshConsumer" "" "111111111111" "/AwsDataMesh/" none
        ((configure_iam "P" "" "tpl" "DataMeshConsumer" "" "111111111111" "/AwsDataMesh/"
          none emptyState).2)).1 =
      Except.ok "arn:aws:iam::111111111111:role/AwsDataMesh/DataMeshConsumer" :=
  configure_iam_role_arn_idem "P" "" "tpl" "DataMeshConsumer" "" "111111111111"
    "/AwsDataMesh/" none emptyState
    "arn:aws:iam::111111111111:role/AwsDataMesh/DataMeshConsumer" rfl

/-- Claim C6: create_assume_role_doc with principals A and B, no resource
and no additional principals yields exactly one statement, with
Principal.AWS equal to that list, Action sts:AssumeRole and Effect
Allow. -/
theorem create_assume_role_doc_pair :
    create_assume_role_doc (some ["A", "B"]) none none =
      Except.ok (PolicyDoc.mk "2012-10-17"
        [Stmt.mk "Allow" "sts:AssumeRole" (some [("AWS", ["A", "B"])]) none]) := rfl

/-- Claim C7: when the DataMeshAdminConsumer role is absent, the account
initialisation raises the wrong-account exception and leaves the account
state untouched; the precondition check runs before any create or attach
call. -/
theorem init_consumer_account_precondition (cpn rp account_id path dcra : String)
    (s : IAMState)
    (h : alookup DATA_MESH_ADMIN_CONSUMER_ROLENAME s.roles = none) :
    (init_consumer_account cpn rp account_id path dcra s).1 =
      Except.error (IAMErr.exception "Function should be run in the Data Consumer Account") ∧
    (init_consumer_account cpn rp account_id path dcra s).2 = s := by
  have hc : check_acct s = Except.error
      (IAMErr.exception "Function should be run in the Data Consumer Account") := by
    simp [check_acct, validate_correct_account, get_role, h]
  simp [init_consumer_account, hc]

/-- Claim C7, witness: on the empty account the administrative role is
absent, so initialisation fails without mutating the state. -/
theorem init_consumer_account_precondition_witness :
    (init_consumer_account "P" "tpl" "111111111111" "/AwsDataMesh/" "arnX" emptyState).1 =
      Except.error (IAMErr.exception "Function should be run in the Data Consumer Account") ∧
    (init_consumer_account "P" "tpl" "111111111111" "/AwsDataMesh/" "arnX" emptyState).2 =
      emptyState :=
  init_consumer_account_precondition "P" "tpl" "111111111111" "/AwsDataMesh/" "arnX"
    emptyState rfl

/-- Claim C8: validate_correct_account answers true exactly when the role
exists and answers false (never an exception) when the lookup reports
not-found. -/
theorem validate_correct_account_iff (rn : String) (s : IAMState) :
    validate_correct_account rn s = Except.ok (alookup rn s.roles).isSome := by
  simp only [validate_correct_account, get_role]
  cases h : alookup rn s.roles <;> simp [h]

/-- Claim C9, counterexample: when the caller passes an additional
principal map that itself carries an AWS key, the merge loop overwrites
Principal.AWS, so the created role does not trust the companion user and
root pair. -/
theorem trust_aws_overwritten_cex :
    roleAwsTrust "DataMeshConsumer"
      (configure_iam "P" "" "tpl" "DataMeshConsumer" "" "111111111111" "/AwsDataMesh/"
        (some [("AWS", ["X"])]) emptyState).2 = some ["X"] ∧
    (some ["X"] : Option (List String)) ≠
      some [arnFor "111111111111" "user" "/AwsDataMesh/" "DataMeshConsumer",
        "arn:aws:iam::111111111111:root"] :=
  ⟨rfl, by decide⟩

/-- Claim C9, amended: on every first-time role creation in which the
additional assuming principals are absent or carry no AWS key, the trust
document of the created role lists exactly the companion user ARN and
the account root principal, in that order. -/
theorem first_time_trust_aws (pn pd rp rn rd account_id path : String)
    (add : Option PrincipalMap) (s : IAMState)
    (hr : alookup rn s.roles = none)
    (hadd : add = none ∨ ∃ m, add = some m ∧ alookup "AWS" m = none) :
    roleAwsTrust rn (configure_iam pn pd rp rn rd account_id path add s).2 =
      some [arnFor account_id "user" path rn, "arn:aws:iam::" ++ account_id ++ ":root"] := by
  obtain ⟨d, hdoc, hl⟩ := create_assume_role_doc_no_aws
    [arnFor account_id "user" path rn, "arn:aws:iam::" ++ account_id ++ ":root"] add hadd
  obtain ⟨_, r1⟩ := configure_iam_fst_char pn pd rp rn rd account_id path add d hdoc s
  rw [hr] at r1
  unfold roleAwsTrust
  rw [r1]
  simpa [trustAwsList] using hl

/-- Claim C9, witness: creating the role from the empty account with no
additional principals stores the two-element trust list. -/
theorem first_time_trust_aws_witness :
    roleAwsTrust "DataMeshConsumer"
      (configure_iam "P" "" "tpl" "DataMeshConsumer" "" "111111111111" "/AwsDataMesh/"
        none emptyState).2 =
      some [arnFor "111111111111" "user" "/AwsDataMesh/" "DataMeshConsumer",
        "arn:aws:iam::" ++ "111111111111" ++ ":root"] :=
  first_time_trust_aws "P" "" "tpl" "DataMeshConsumer" "" "111111111111" "/AwsDataMesh/"
    none emptyState rfl (Or.inl rfl)

/-- Claim C10, counterexample: an empty additional-principal map is not
None, yet the loop body never runs, so the call succeeds instead of
failing with a key-lookup error. -/
theorem empty_additional_ok_cex :
    create_assume_role_doc none none (some []) =
      Except.ok (PolicyDoc.mk "2012-10-17"
        [Stmt.mk "Allow" "sts:AssumeRole" none none]) := rfl

/-- Claim C10, amended: with a non-empty additional-principal map and no
AWS principals, the first loop iteration reads the missing Principal
entry and the call fails with KeyError Principal. -/
theorem nonempty_additional_key_error (k : String) (v : List String)
    (rest : PrincipalMap) (res : Option String) :
    create_assume_role_doc none res (some ((k, v) :: rest)) =
      Except.error (IAMErr.keyError "Principal") := rfl

end DataMesh
